import Mathlib

/-!
# Verification of the grid-walking / maze / sandbox motion controllers

Shallow embedding of the entity-motion logic of the repository's scene
variants:

* variant A — the first-person mushroom maze (`src/src/App.tsx`,
  `FirstPersonPlayer`): grid movement with facing-relative steps,
  steppable mushroom obstacles, a jump / fall state machine driven by
  per-frame gravity integration;
* variant B — the first-person maze with impassable red obstacles
  (`src/unnamed/part_001`, first `FirstPersonPlayer`): grid movement
  where obstacle cells block movement, no jumping;
* the free-roam sandbox (`src/unnamed/part_000` and `part_002`,
  `Player`): continuous WASD movement with jump and a ground clamp,
  plus the collectible / score game state (`Game.handleCollect`).

All real-number quantities of the source (positions, heights,
velocities, time deltas) are modelled as exact rationals `ℚ`; grid
coordinates are `ℤ`; the facing direction is a `ℕ` kept in `[0,4)` by
the `% 4` arithmetic of the source.  React's functional state updates
(`setX(prev => ...)`) are modelled by sequential substitution; when two
updates of the same cell are queued in one handler the later one wins,
exactly as React applies queued updaters in order.
-/

namespace Cody

set_option maxRecDepth 100000
set_option maxHeartbeats 1000000

/-- `GRID_SIZE` from the source (all grid variants use 10). -/
def GRID_SIZE : Int := 10

/-- The static obstacle list shared verbatim by the grid variants
(`const obstacles = [[2,3],[7,1],[4,6],[8,8],[1,7],[6,2],[3,9],[9,4]]`). -/
def obstaclesList : List (Int × Int) :=
  [(2, 3), (7, 1), (4, 6), (8, 8), (1, 7), (6, 2), (3, 9), (9, 4)]

/-- The discrete key-down events the grid-variant handlers switch on;
`other` stands for any key code without a `case` (the switch falls
through and nothing happens). -/
inductive Key where
  | arrowUp
  | arrowDown
  | arrowLeft
  | arrowRight
  | space
  | other
deriving DecidableEq, Repr

/-- `getFacingDirectionDelta` of variant A / B: unit grid step for each
facing (0 = North, 1 = East, 2 = South, 3 = West; default North). -/
def getFacingDirectionDelta (direction : Nat) : Int × Int :=
  match direction with
  | 0 => (0, -1)
  | 1 => (1, 0)
  | 2 => (0, 1)
  | 3 => (-1, 0)
  | _ => (0, -1)

/-- Variant A `isPositionBlocked`: only positions outside the grid are
blocked (mushrooms are steppable, so obstacle cells are not blocked). -/
def isPositionBlocked (pos : Int × Int) : Bool :=
  pos.1 < 0 || pos.1 ≥ GRID_SIZE || pos.2 < 0 || pos.2 ≥ GRID_SIZE

/-- `isOnMushroom`: whether a grid cell holds one of the static
mushroom obstacles (`obstacles.some(o => o[0] === pos[0] && o[1] === pos[1])`). -/
def isOnMushroom (pos : Int × Int) : Bool :=
  obstaclesList.any (fun o => o.1 == pos.1 && o.2 == pos.2)

/-- The component-local state of variant A's `FirstPersonPlayer`:
`currentGridPos`, `worldPosition` (x, y, z), `isFalling`, `fallSpeed`,
`facingDirection`, `isJumping`, `jumpVelocity`, `playerHeight`. -/
@[ext]
structure StateA where
  gridX : Int
  gridZ : Int
  worldX : ℚ
  worldY : ℚ
  worldZ : ℚ
  isFalling : Bool
  fallSpeed : ℚ
  facingDirection : Nat
  isJumping : Bool
  jumpVelocity : ℚ
  playerHeight : ℚ
deriving DecidableEq, Repr

/-- Notifications the variant-A key handler may emit to its
collaborators: `onMove` with the new grid position, `onRotate` with the
new facing. -/
structure NotifA where
  moved : Option (Int × Int)
  rotated : Option Nat
deriving DecidableEq, Repr

/-- The silent outcome: no notification emitted. -/
def NotifA.none : NotifA := ⟨Option.none, Option.none⟩

/-- The ground level variant A computes fresh each frame: 1.0 when the
occupied cell holds a mushroom, else 0.5. -/
def groundLevelA (s : StateA) : ℚ :=
  if isOnMushroom (s.gridX, s.gridZ) then 1 else 1 / 2

/-- Variant A `handleKeyDown`: ignored entirely while falling;
ArrowUp/ArrowDown step one cell along the facing (forward / backward)
when the target is not blocked; ArrowLeft/ArrowRight rotate the facing
by ∓90° mod 4 and notify `onRotate`; Space starts a jump (velocity 8)
only when not already jumping and the height is within 0.1 of the
current ground level. -/
def stepA (s : StateA) (e : Key) : StateA × NotifA :=
  if s.isFalling then (s, NotifA.none)
  else
    match e with
    | Key.arrowUp =>
        let d := getFacingDirectionDelta s.facingDirection
        let np := (s.gridX + d.1, s.gridZ + d.2)
        if isPositionBlocked np then (s, NotifA.none)
        else ({ s with gridX := np.1, gridZ := np.2 }, ⟨some np, Option.none⟩)
    | Key.arrowDown =>
        let d := getFacingDirectionDelta s.facingDirection
        let np := (s.gridX - d.1, s.gridZ - d.2)
        if isPositionBlocked np then (s, NotifA.none)
        else ({ s with gridX := np.1, gridZ := np.2 }, ⟨some np, Option.none⟩)
    | Key.arrowLeft =>
        let nd := (s.facingDirection + 3) % 4
        ({ s with facingDirection := nd }, ⟨Option.none, some nd⟩)
    | Key.arrowRight =>
        let nd := (s.facingDirection + 1) % 4
        ({ s with facingDirection := nd }, ⟨Option.none, some nd⟩)
    | Key.space =>
        let g := groundLevelA s
        if !s.isJumping && |s.playerHeight - g| < 1 / 10 then
          ({ s with isJumping := true, jumpVelocity := 8 }, NotifA.none)
        else (s, NotifA.none)
    | Key.other => (s, NotifA.none)

/-- Variant A `useFrame` body (`advance(Δt)`): smooth the horizontal
world position toward the cell centre (`gridToWorld`, offset
(GRID_SIZE−1)/2 = 4.5, smoothing rate 5); then resolve the vertical
axis by the current motion state — jumping integrates `jumpVelocity`
with gravity 20 and lands by clamping to the ground level; otherwise a
height strictly above ground falls with `fallSpeed` (gravity 20) until
clamped, and a height strictly below ground snaps up instantly. -/
def advanceA (dt : ℚ) (s : StateA) : StateA :=
  let newX := s.worldX + (((s.gridX : ℚ) - 9 / 2) - s.worldX) * 5 * dt
  let newZ := s.worldZ + (((s.gridZ : ℚ) - 9 / 2) - s.worldZ) * 5 * dt
  let g := groundLevelA s
  if s.isJumping then
    let h1 := s.playerHeight + s.jumpVelocity * dt
    if h1 ≤ g then
      { s with worldX := newX, worldY := g, worldZ := newZ,
               playerHeight := g, isJumping := false, jumpVelocity := 0 }
    else
      { s with worldX := newX, worldY := h1, worldZ := newZ,
               playerHeight := h1, jumpVelocity := s.jumpVelocity - 20 * dt }
  else if s.playerHeight > g then
    let h1 := s.playerHeight + s.fallSpeed * dt
    if h1 ≤ g then
      { s with worldX := newX, worldY := g, worldZ := newZ,
               playerHeight := g, isFalling := false, fallSpeed := 0 }
    else
      { s with worldX := newX, worldY := h1, worldZ := newZ,
               playerHeight := h1, isFalling := true, fallSpeed := s.fallSpeed - 20 * dt }
  else if s.playerHeight < g then
    { s with worldX := newX, worldY := g, worldZ := newZ,
             playerHeight := g, isFalling := false, fallSpeed := 0 }
  else
    { s with worldX := newX, worldY := s.playerHeight, worldZ := newZ }

/-- Horizontal error of variant A's smoothing on the x axis: target
`(gridX − 4.5)·CELL_SIZE` minus the current world x. -/
def errX (s : StateA) : ℚ := ((s.gridX : ℚ) - 9 / 2) - s.worldX

/-- Horizontal error of variant A's smoothing on the z axis. -/
def errZ (s : StateA) : ℚ := ((s.gridZ : ℚ) - 9 / 2) - s.worldZ

/-- A one-cell grid step: the two coordinates differ by exactly one
unit on exactly one axis. -/
def unitStep (a b : Int × Int) : Prop :=
  (|b.1 - a.1| = 1 ∧ b.2 = a.2) ∨ (b.1 = a.1 ∧ |b.2 - a.2| = 1)

instance (a b : Int × Int) : Decidable (unitStep a b) := by
  unfold unitStep; infer_instance

/-- The component-local state of variant B's `FirstPersonPlayer`
(`src/unnamed/part_001`): grid position, world position (y fixed at
0.5 by its frame loop), falling flag, fall speed, facing. -/
structure StateB where
  gridX : Int
  gridZ : Int
  worldX : ℚ
  worldZ : ℚ
  isFalling : Bool
  fallSpeed : ℚ
  facingDirection : Nat
deriving DecidableEq, Repr

/-- Variant B `isPositionBlocked`: outside the grid, or coinciding with
one of the (impassable) red obstacles. -/
def isPositionBlockedB (pos : Int × Int) : Bool :=
  if pos.1 < 0 || pos.1 ≥ GRID_SIZE || pos.2 < 0 || pos.2 ≥ GRID_SIZE then true
  else obstaclesList.any (fun o => o.1 == pos.1 && o.2 == pos.2)

/-- Variant B `handleKeyDown`: ignored entirely while falling;
ArrowUp/ArrowDown step along the facing when the target is neither out
of bounds nor an obstacle; ArrowLeft/ArrowRight rotate mod 4; any other
key (there is no Space case) does nothing.  Returns the new state and
the `onMove` notification, if any. -/
def stepB (s : StateB) (e : Key) : StateB × Option (Int × Int) :=
  if s.isFalling then (s, Option.none)
  else
    match e with
    | Key.arrowUp =>
        let d := getFacingDirectionDelta s.facingDirection
        let np := (s.gridX + d.1, s.gridZ + d.2)
        if isPositionBlockedB np then (s, Option.none)
        else ({ s with gridX := np.1, gridZ := np.2 }, some np)
    | Key.arrowDown =>
        let d := getFacingDirectionDelta s.facingDirection
        let np := (s.gridX - d.1, s.gridZ - d.2)
        if isPositionBlockedB np then (s, Option.none)
        else ({ s with gridX := np.1, gridZ := np.2 }, some np)
    | Key.arrowLeft =>
        ({ s with facingDirection := (s.facingDirection + 3) % 4 }, Option.none)
    | Key.arrowRight =>
        ({ s with facingDirection := (s.facingDirection + 1) % 4 }, Option.none)
    | _ => (s, Option.none)

/-- The held-key flags of the free-roam sandbox `Player`
(`keys.current`). -/
structure FreeKeys where
  w : Bool
  a : Bool
  s : Bool
  d : Bool
  space : Bool
deriving DecidableEq, Repr

/-- The free-roam sandbox `Player` state: continuous position,
velocity, and the on-ground flag. -/
structure FreeState where
  posX : ℚ
  posY : ℚ
  posZ : ℚ
  velX : ℚ
  velY : ℚ
  velZ : ℚ
  isOnGround : Bool
deriving DecidableEq, Repr

/-- The free-roam `useFrame` body (`src/unnamed/part_000` and
`part_002`, identical physics): held WASD keys translate at speed 5;
Space while on the ground sets vertical velocity to the jump force 8
and clears the ground flag; gravity −20 integrates into the vertical
velocity, which integrates into the y position; finally y at or below
the ground level 0.5 is clamped to 0.5 with the velocity zeroed and the
ground flag set. -/
def advanceFree (keys : FreeKeys) (dt : ℚ) (st : FreeState) : FreeState :=
  let px := st.posX + (if keys.a then -5 * dt else 0) + (if keys.d then 5 * dt else 0)
  let pz := st.posZ + (if keys.w then -5 * dt else 0) + (if keys.s then 5 * dt else 0)
  let v1 : ℚ := if keys.space && st.isOnGround then 8 else st.velY
  let onG1 : Bool := if keys.space && st.isOnGround then false else st.isOnGround
  let v2 := v1 + (-20) * dt
  let py := st.posY + v2 * dt
  if py ≤ 1 / 2 then
    { st with posX := px, posY := 1 / 2, posZ := pz, velY := 0, isOnGround := true }
  else
    { st with posX := px, posY := py, posZ := pz, velY := v2, isOnGround := onG1 }

/-- A collectible of the sandbox `Game`: unique id and world position. -/
structure Collectible where
  id : Nat
  posX : ℚ
  posY : ℚ
  posZ : ℚ
deriving DecidableEq, Repr

/-- The sandbox `Game` state touched by collection: the active
collectible list and the score. -/
structure GameState where
  collectibles : List Collectible
  score : Nat
deriving DecidableEq, Repr

/-- `handleCollect(id)`: filter the collectible with that id out of the
active list and add 10 to the score. -/
def handleCollect (i : Nat) (g : GameState) : GameState :=
  { collectibles := g.collectibles.filter (fun c => c.id ≠ i),
    score := g.score + 10 }

/-- The sandbox `Game`'s initial state: three collectibles, score 0. -/
def initialGame : GameState :=
  { collectibles :=
      [⟨1, 2, 1, 0⟩, ⟨2, -2, 1, 2⟩, ⟨3, 0, 1, -3⟩],
    score := 0 }

/-- Variant A settled at its spawn cell (5,5): grounded at height 0.5
over a non-obstacle cell, world position at the cell centre
`gridToWorld (5,5) = (0.5, 0.5, 0.5)`, facing North. -/
def sInitA : StateA :=
  { gridX := 5, gridZ := 5, worldX := 1 / 2, worldY := 1 / 2, worldZ := 1 / 2,
    isFalling := false, fallSpeed := 0, facingDirection := 0,
    isJumping := false, jumpVelocity := 0, playerHeight := 1 / 2 }

/-- The state right after the Space handler fires from `sInitA`:
jumping with vertical velocity 8. -/
def jumpStart : StateA := (stepA sInitA Key.space).1

/-- The jump trajectory: `n` frames of `advance` at Δt = 1/60 after the
jump input. -/
def jumpSim (n : Nat) : StateA := (advanceA (1 / 60))^[n] jumpStart

/-- Variant A settled at (2,2) (a plain cell next to the mushroom at
(2,3)), facing South, grounded at 0.5, world at the cell centre
`gridToWorld (2,2) = (-2.5, 0.5, -2.5)`. -/
def sC6 : StateA :=
  { gridX := 2, gridZ := 2, worldX := -5 / 2, worldY := 1 / 2, worldZ := -5 / 2,
    isFalling := false, fallSpeed := 0, facingDirection := 2,
    isJumping := false, jumpVelocity := 0, playerHeight := 1 / 2 }

/-- After one forward step from `sC6`: the player now occupies the
mushroom cell (2,3) with the height still 0.5. -/
def sC6onto : StateA := (stepA sC6 Key.arrowUp).1

/-- One frame after stepping onto the mushroom cell. -/
def sC6up : StateA := advanceA (1 / 60) sC6onto

/-- After one more forward step from atop the mushroom: the player
occupies the plain cell (2,4) at height 1.0. -/
def sC6off : StateA := (stepA sC6up Key.arrowUp).1

/-- The fall trajectory after walking off the mushroom: `n` frames of
`advance` at Δt = 1/60. -/
def fallSim (n : Nat) : StateA := (advanceA (1 / 60))^[n] sC6off

/-- Variant A grounded on the grid's North edge (gridZ = 0), facing
North: a forward step would leave the grid. -/
def edgeA : StateA := { sInitA with gridZ := 0 }

/-- Variant A mid-fall (e.g. just after walking off a mushroom). -/
def fallingA : StateA := { sInitA with isFalling := true, playerHeight := 1 }

/-- The facing delta is always one of the four unit vectors (the
default branch of the switch returns North's delta). -/
theorem getFacingDirectionDelta_cases (d : Nat) :
    getFacingDirectionDelta d = (0, -1) ∨ getFacingDirectionDelta d = (1, 0) ∨
    getFacingDirectionDelta d = (0, 1) ∨ getFacingDirectionDelta d = (-1, 0) := by
  match d with
  | 0 => exact Or.inl rfl
  | 1 => exact Or.inr (Or.inl rfl)
  | 2 => exact Or.inr (Or.inr (Or.inl rfl))
  | 3 => exact Or.inr (Or.inr (Or.inr rfl))
  | (n + 4) => exact Or.inl rfl

/-- One frame of variant A's smoothing multiplies both horizontal
errors by `1 − 5·Δt` and leaves the grid coordinate alone, whatever
the vertical state machine does. -/
theorem errX_errZ_advanceA (dt : ℚ) (s : StateA) :
    errX (advanceA dt s) = errX s * (1 - 5 * dt) ∧
    errZ (advanceA dt s) = errZ s * (1 - 5 * dt) := by
  simp only [advanceA, errX, errZ]
  split_ifs <;> constructor <;> simp <;> ring

/-- C10: in the free-roam variant, every `advance(Δt)` call with
Δt ≥ 0 ends with the player's vertical coordinate at least the ground
level 0.5, for any held keys, position and velocity. -/
theorem advanceFree_posY_ge_ground (keys : FreeKeys) (dt : ℚ) (st : FreeState)
    (hdt : 0 ≤ dt) :
    1 / 2 ≤ (advanceFree keys dt st).posY := by
  simp only [advanceFree]
  split_ifs <;> simp_all only [not_le] <;> first
    | exact le_refl _
    | exact le_of_lt (by assumption)

/-- Witness for `advanceFree_posY_ge_ground` at a concrete frame: no
keys held, Δt = 0, the player spawned at the origin below ground. -/
theorem advanceFree_posY_ge_ground_witness :
    (0 : ℚ) ≤ 0 ∧
    1 / 2 ≤ (advanceFree ⟨false, false, false, false, false⟩ 0
      ⟨0, 0, 0, 0, 0, 0, true⟩).posY :=
  ⟨by norm_num,
   advanceFree_posY_ge_ground ⟨false, false, false, false, false⟩ 0
     ⟨0, 0, 0, 0, 0, 0, true⟩ (by norm_num)⟩

/-- C4 counterexample: delivering the collection event twice for id 1
from the sandbox's initial state adds 20 to the score, not 10, and the
resulting game state differs from the single-collection state — so
collection is not idempotent on the whole game state. -/
theorem handleCollect_twice_cex :
    (handleCollect 1 (handleCollect 1 initialGame)).score = 20 ∧
    handleCollect 1 (handleCollect 1 initialGame) ≠ handleCollect 1 initialGame ∧
    ¬ (handleCollect 1 (handleCollect 1 initialGame)).score
        = initialGame.score + 10 :=
  of_decide_eq_true (by with_unfolding_all rfl)

/-- C4 amended: delivering the collection event twice for the same id
removes the collectible from the active set exactly once (the active
set after two deliveries equals the set after one), but each delivery
adds 10 to the score, so two deliveries add 20 in total. -/
theorem handleCollect_removes_once_scores_per_event (g : GameState) (i : Nat) :
    (handleCollect i (handleCollect i g)).collectibles
        = (handleCollect i g).collectibles ∧
    (handleCollect i (handleCollect i g)).score = g.score + 20 := by
  constructor
  · simp [handleCollect, List.filter_filter]
  · simp [handleCollect]

/-- C5 counterexample: the state reached right after a jump input from
the settled spawn state (jumping, height still exactly at ground
level) is changed by `advance` with Δt = 0 — the zero-length frame
lands the jump immediately, flipping `isJumping` and zeroing
`jumpVelocity`. -/
theorem advanceA_zero_dt_cex : advanceA 0 jumpStart ≠ jumpStart :=
  of_decide_eq_true (by with_unfolding_all rfl)

/-- C5 amended: `advance` with Δt = 0 never changes the grid
coordinate, the facing direction, or the horizontal world-position
components; and a state that is not jumping, sits exactly at its
cell's ground level, and has its world y equal to its stored height is
left entirely unchanged.  (States straddling the ground level — e.g. a
jump that has not yet left the ground — may still change motion state
at Δt = 0.) -/
theorem advanceA_zero_dt_amended (s : StateA) :
    ((advanceA 0 s).gridX = s.gridX ∧ (advanceA 0 s).gridZ = s.gridZ ∧
     (advanceA 0 s).facingDirection = s.facingDirection ∧
     (advanceA 0 s).worldX = s.worldX ∧ (advanceA 0 s).worldZ = s.worldZ) ∧
    (s.isJumping = false → s.playerHeight = groundLevelA s →
      s.worldY = s.playerHeight → advanceA 0 s = s) := by
  constructor
  · simp only [advanceA]
    split_ifs <;> refine ⟨rfl, rfl, rfl, by simp, by simp⟩
  · intro h1 h2 h3
    simp only [advanceA, h1]
    rw [if_neg (by simp), if_neg (by rw [h2]; exact lt_irrefl _),
      if_neg (by rw [h2]; exact lt_irrefl _)]
    ext <;> simp [h1, h3]

/-- Stepping by a facing delta (or its negation) always changes the
grid coordinate by exactly one unit on exactly one axis. -/
theorem unitStep_add_delta (a b : Int) (d : Nat) :
    unitStep (a, b)
      (a + (getFacingDirectionDelta d).1, b + (getFacingDirectionDelta d).2) ∧
    unitStep (a, b)
      (a - (getFacingDirectionDelta d).1, b - (getFacingDirectionDelta d).2) := by
  rcases getFacingDirectionDelta_cases d with h | h | h | h <;>
    rw [h] <;> constructor <;> simp [unitStep]

/-- C1: every invalid input — a directional event whose candidate
target cell falls outside the grid, or a jump while the entity is
airborne (already jumping, or falling) — is silently ignored by
variant A's key handler: the whole state is unchanged and no
notification is emitted. -/
theorem stepA_invalid_input_ignored (s : StateA) (e : Key)
    (h : (e = Key.arrowUp ∧
            isPositionBlocked
              (s.gridX + (getFacingDirectionDelta s.facingDirection).1,
               s.gridZ + (getFacingDirectionDelta s.facingDirection).2) = true) ∨
         (e = Key.arrowDown ∧
            isPositionBlocked
              (s.gridX - (getFacingDirectionDelta s.facingDirection).1,
               s.gridZ - (getFacingDirectionDelta s.facingDirection).2) = true) ∨
         (e = Key.space ∧ (s.isJumping = true ∨ s.isFalling = true))) :
    stepA s e = (s, NotifA.none) := by
  by_cases hf : s.isFalling = true
  · simp [stepA, hf]
  · rcases h with ⟨he, hb⟩ | ⟨he, hb⟩ | ⟨he, hj⟩ <;> subst he
    · simp [stepA, hf, hb]
    · simp [stepA, hf, hb]
    · rcases hj with hj | hj
      · simp [stepA, hf, hj]
      · exact absurd hj hf

/-- Witness for `stepA_invalid_input_ignored`: a forward step from the
North edge of the grid is ignored. -/
theorem stepA_invalid_input_ignored_witness :
    isPositionBlocked
      (edgeA.gridX + (getFacingDirectionDelta edgeA.facingDirection).1,
       edgeA.gridZ + (getFacingDirectionDelta edgeA.facingDirection).2) = true ∧
    stepA edgeA Key.arrowUp = (edgeA, NotifA.none) :=
  ⟨by decide,
   stepA_invalid_input_ignored edgeA Key.arrowUp (Or.inl ⟨rfl, by decide⟩)⟩

/-- C2: in both grid variants, a forward or backward input from an
in-bounds cell either is accepted — the `onMove` notification fires
and the grid coordinate changes by exactly one unit on exactly one
axis — or is rejected and the grid coordinate is unchanged. -/
theorem directional_move_unit_or_unchanged (s : StateA) (t : StateB) (e : Key)
    (he : e = Key.arrowUp ∨ e = Key.arrowDown)
    (hA : isPositionBlocked (s.gridX, s.gridZ) = false)
    (hB : isPositionBlocked (t.gridX, t.gridZ) = false) :
    (((stepA s e).2.moved ≠ Option.none →
        unitStep (s.gridX, s.gridZ) ((stepA s e).1.gridX, (stepA s e).1.gridZ)) ∧
     ((stepA s e).2.moved = Option.none →
        ((stepA s e).1.gridX, (stepA s e).1.gridZ) = (s.gridX, s.gridZ))) ∧
    (((stepB t e).2 ≠ Option.none →
        unitStep (t.gridX, t.gridZ) ((stepB t e).1.gridX, (stepB t e).1.gridZ)) ∧
     ((stepB t e).2 = Option.none →
        ((stepB t e).1.gridX, (stepB t e).1.gridZ) = (t.gridX, t.gridZ))) := by
  constructor
  · rcases he with he | he <;> subst he <;>
      by_cases hf : s.isFalling = true <;>
      simp only [stepA, hf, if_true, if_false] <;>
      (try split_ifs) <;>
      constructor <;>
      intro hm <;>
      simp [NotifA.none] at hm ⊢ <;>
      first
        | exact (unitStep_add_delta s.gridX s.gridZ s.facingDirection).1
        | exact (unitStep_add_delta s.gridX s.gridZ s.facingDirection).2
  · rcases he with he | he <;> subst he <;>
      by_cases hf : t.isFalling = true <;>
      simp only [stepB, hf, if_true, if_false] <;>
      (try split_ifs) <;>
      constructor <;>
      intro hm <;>
      simp at hm ⊢ <;>
      first
        | exact (unitStep_add_delta t.gridX t.gridZ t.facingDirection).1
        | exact (unitStep_add_delta t.gridX t.gridZ t.facingDirection).2

/-- Witness for `directional_move_unit_or_unchanged`: a forward step
from the spawn cell of each variant. -/
theorem directional_move_unit_or_unchanged_witness :
    (Key.arrowUp = Key.arrowUp ∨ Key.arrowUp = Key.arrowDown) ∧
    isPositionBlocked (sInitA.gridX, sInitA.gridZ) = false ∧
    isPositionBlocked ((5 : Int), (5 : Int)) = false ∧
    (((stepA sInitA Key.arrowUp).2.moved ≠ Option.none →
        unitStep (sInitA.gridX, sInitA.gridZ)
          ((stepA sInitA Key.arrowUp).1.gridX, (stepA sInitA Key.arrowUp).1.gridZ)) ∧
     ((stepA sInitA Key.arrowUp).2.moved = Option.none →
        ((stepA sInitA Key.arrowUp).1.gridX, (stepA sInitA Key.arrowUp).1.gridZ)
          = (sInitA.gridX, sInitA.gridZ))) :=
  ⟨Or.inl rfl, by decide, by decide,
   (directional_move_unit_or_unchanged sInitA
      ⟨5, 5, 5, 5, false, 0, 0⟩ Key.arrowUp (Or.inl rfl)
      (by decide) (by decide)).1⟩

/-- C7: from any facing (with no fall in progress), TurnRight advances
the facing cyclically North→East→South→West→North (+1 mod 4) and four
TurnRights return to the start; TurnLeft traverses the reverse cycle
(+3 mod 4) and four TurnLefts also return to the start; a TurnLeft
undoes a TurnRight; and no turn changes the grid coordinate. -/
theorem turn_events_cycle (s : StateA) (hf : s.isFalling = false)
    (hd : s.facingDirection < 4) :
    ((stepA s Key.arrowRight).1.facingDirection = (s.facingDirection + 1) % 4) ∧
    ((stepA s Key.arrowLeft).1.facingDirection = (s.facingDirection + 3) % 4) ∧
    ((stepA s Key.arrowRight).1.gridX = s.gridX ∧
     (stepA s Key.arrowRight).1.gridZ = s.gridZ) ∧
    ((stepA s Key.arrowLeft).1.gridX = s.gridX ∧
     (stepA s Key.arrowLeft).1.gridZ = s.gridZ) ∧
    ((stepA (stepA (stepA (stepA s Key.arrowRight).1
        Key.arrowRight).1 Key.arrowRight).1 Key.arrowRight).1.facingDirection
      = s.facingDirection) ∧
    ((stepA (stepA (stepA (stepA s Key.arrowLeft).1
        Key.arrowLeft).1 Key.arrowLeft).1 Key.arrowLeft).1.facingDirection
      = s.facingDirection) ∧
    ((stepA (stepA s Key.arrowRight).1 Key.arrowLeft).1.facingDirection
      = s.facingDirection) := by
  simp [stepA, hf]
  all_goals omega

/-- Witness for `turn_events_cycle` at the spawn state facing North. -/
theorem turn_events_cycle_witness :
    sInitA.isFalling = false ∧ sInitA.facingDirection < 4 ∧
    (stepA sInitA Key.arrowRight).1.facingDirection
      = (sInitA.facingDirection + 1) % 4 :=
  ⟨rfl, by decide, (turn_events_cycle sInitA rfl (by decide)).1⟩

/-- C8: in the maze variants, every input delivered while falling is
ignored outright (variant A and variant B); while a non-space input
delivered mid-jump in variant A is processed exactly as it would be
when not jumping — same grid/facing outcome, same notification — with
only the jump flag carried along. -/
theorem falling_locks_input_but_jumping_does_not :
    (∀ (s : StateA) (e : Key), s.isFalling = true →
        stepA s e = (s, NotifA.none)) ∧
    (∀ (s : StateA) (e : Key), s.isFalling = false → e ≠ Key.space →
        (stepA { s with isJumping := true } e).1
            = { (stepA { s with isJumping := false } e).1 with isJumping := true } ∧
        (stepA { s with isJumping := true } e).2
            = (stepA { s with isJumping := false } e).2) ∧
    (∀ (t : StateB) (e : Key), t.isFalling = true →
        stepB t e = (t, Option.none)) := by
  refine ⟨?_, ?_, ?_⟩
  · intro s e h
    simp [stepA, h]
  · intro s e hf he
    cases e
    case space => exact absurd rfl he
    all_goals constructor <;> simp only [stepA, hf, Bool.false_eq_true, if_false] <;>
      split_ifs <;> rfl
  · intro t e h
    simp [stepB, h]

/-- Witness for `falling_locks_input_but_jumping_does_not`: a forward
step while falling is ignored. -/
theorem falling_locks_input_witness :
    fallingA.isFalling = true ∧
    stepA fallingA Key.arrowUp = (fallingA, NotifA.none) :=
  ⟨rfl, falling_locks_input_but_jumping_does_not.1 fallingA Key.arrowUp rfl⟩

/-- Witness for `advanceA_zero_dt_amended`: the settled spawn state is
a fixed point of `advance` at Δt = 0. -/
theorem advanceA_zero_dt_amended_witness :
    sInitA.isJumping = false ∧ sInitA.playerHeight = groundLevelA sInitA ∧
    sInitA.worldY = sInitA.playerHeight ∧ advanceA 0 sInitA = sInitA :=
  ⟨by with_unfolding_all rfl, by with_unfolding_all rfl,
   by with_unfolding_all rfl,
   (advanceA_zero_dt_amended sInitA).2 (by with_unfolding_all rfl)
     (by with_unfolding_all rfl) (by with_unfolding_all rfl)⟩

/-- C9: with a fixed grid coordinate and no further input, each
`advance(Δt)` multiplies the horizontal distance to the cell-centre
target by exactly `1 − 5·Δt` on both axes, so after `n` frames the
error is the initial error times `(1 − 5·Δt)^n`; and for
`0 ≤ Δt < 1/5` the error never grows and never changes sign (no
overshoot). -/
theorem smoothing_exponential_decay (s : StateA) (dt : ℚ) (n : ℕ) :
    errX ((advanceA dt)^[n] s) = errX s * (1 - 5 * dt) ^ n ∧
    errZ ((advanceA dt)^[n] s) = errZ s * (1 - 5 * dt) ^ n ∧
    (0 ≤ dt → dt < 1 / 5 →
      |errX ((advanceA dt)^[n] s)| ≤ |errX s| ∧
      (0 ≤ errX s → 0 ≤ errX ((advanceA dt)^[n] s)) ∧
      (errX s ≤ 0 → errX ((advanceA dt)^[n] s) ≤ 0)) := by
  have key : ∀ m, errX ((advanceA dt)^[m] s) = errX s * (1 - 5 * dt) ^ m ∧
      errZ ((advanceA dt)^[m] s) = errZ s * (1 - 5 * dt) ^ m := by
    intro m
    induction m with
    | zero => simp
    | succ k ih =>
        rw [Function.iterate_succ_apply']
        rcases errX_errZ_advanceA dt ((advanceA dt)^[k] s) with ⟨h1, h2⟩
        rw [h1, h2, ih.1, ih.2]
        constructor <;> ring
  refine ⟨(key n).1, (key n).2, ?_⟩
  intro h0 h5
  have hq0 : (0 : ℚ) ≤ 1 - 5 * dt := by linarith
  have hq1 : 1 - 5 * dt ≤ 1 := by linarith
  have hpow0 : (0 : ℚ) ≤ (1 - 5 * dt) ^ n := pow_nonneg hq0 n
  have hpow1 : (1 - 5 * dt) ^ n ≤ 1 := pow_le_one₀ hq0 hq1
  refine ⟨?_, ?_, ?_⟩
  · rw [(key n).1, abs_mul, abs_of_nonneg hpow0]
    calc |errX s| * (1 - 5 * dt) ^ n ≤ |errX s| * 1 :=
          mul_le_mul_of_nonneg_left hpow1 (abs_nonneg _)
      _ = |errX s| := mul_one _
  · intro h
    rw [(key n).1]
    exact mul_nonneg h hpow0
  · intro h
    rw [(key n).1]
    nlinarith

/-- Witness for `smoothing_exponential_decay`: two frames at Δt = 1/10
from the settled state at (2,2). -/
theorem smoothing_exponential_decay_witness :
    (0 : ℚ) ≤ 1 / 10 ∧ (1 : ℚ) / 10 < 1 / 5 ∧
    |errX ((advanceA (1 / 10))^[2] sC6)| ≤ |errX sC6| :=
  ⟨by norm_num, by norm_num,
   ((smoothing_exponential_decay sC6 (1 / 10) 2).2.2
      (by norm_num) (by norm_num)).1⟩

/-- C3: from the settled spawn state (grounded at 0.5 over a
non-obstacle cell), a jump input followed by `advance` frames at
Δt = 1/60 with gravity 20 and initial velocity 8 makes the height rise
strictly above 0.5 on every airborne frame, peak at exactly
0.5 + 5/3 (frame 24) — within 0.1 of the predicted 8²/(2·20) = 1.6
above ground — and on frame 49 return to exactly height 0.5,
Grounded, with the vertical velocity zeroed (in fact the whole state
returns to the settled spawn state). -/
theorem jump_rises_peaks_returns_to_ground :
    ((jumpSim 1).playerHeight > 1 / 2) ∧
    (∀ n, n < 49 → 0 < n → (jumpSim n).playerHeight > 1 / 2) ∧
    (jumpSim 49 = sInitA) ∧
    ((jumpSim 49).playerHeight = 1 / 2 ∧ (jumpSim 49).isJumping = false ∧
      (jumpSim 49).isFalling = false ∧ (jumpSim 49).jumpVelocity = 0) ∧
    ((jumpSim 24).playerHeight = 1 / 2 + 5 / 3) ∧
    (∀ n, (jumpSim n).playerHeight ≤ 1 / 2 + 5 / 3) ∧
    (|(5 : ℚ) / 3 - 8 * 8 / (2 * 20)| < 1 / 10) := by
  have h49 : jumpSim 49 = sInitA := by with_unfolding_all rfl
  have hfix : advanceA (1 / 60) sInitA = sInitA := by with_unfolding_all rfl
  have htail : ∀ k, jumpSim (49 + k) = sInitA := by
    intro k
    induction k with
    | zero => exact h49
    | succ m ih =>
        have hstep : jumpSim (49 + (m + 1))
            = advanceA (1 / 60) (jumpSim (49 + m)) := by
          show (advanceA (1 / 60))^[49 + (m + 1)] jumpStart = _
          rw [show 49 + (m + 1) = (49 + m) + 1 by omega]
          exact Function.iterate_succ_apply' _ _ _
        rw [hstep, ih, hfix]
  have hbound : ∀ n, n < 50 → (jumpSim n).playerHeight ≤ 1 / 2 + 5 / 3 :=
    of_decide_eq_true (by with_unfolding_all rfl)
  refine ⟨?_, ?_, h49, ?_, ?_, ?_, ?_⟩
  · exact of_decide_eq_true (by with_unfolding_all rfl)
  · exact of_decide_eq_true (by with_unfolding_all rfl)
  · exact of_decide_eq_true (by with_unfolding_all rfl)
  · exact of_decide_eq_true (by with_unfolding_all rfl)
  · intro n
    by_cases hn : n < 50
    · exact hbound n hn
    · have hsplit : n = 49 + (n - 49) := by omega
      rw [hsplit, htail]
      norm_num [sInitA]
  · rw [abs_of_nonneg (by norm_num)]
    norm_num

/-- Witness for `jump_rises_peaks_returns_to_ground` at the peak
frame. -/
theorem jump_rises_witness :
    24 < 49 ∧ 0 < 24 ∧ (jumpSim 24).playerHeight > 1 / 2 :=
  ⟨by norm_num, by norm_num,
   jump_rises_peaks_returns_to_ground.2.1 24 (by norm_num) (by norm_num)⟩

/-- C6: from grounded height 0.5 at (2,2) facing South, a forward step
onto the mushroom cell (2,3) keeps height 0.5 until the next `advance`,
which snaps the height to 1.0 instantly with no Falling transition;
a further forward step off the mushroom to (2,4) leaves height 1.0,
and the following `advance` frames fall (isFalling = true, height
strictly above 0.5) until frame 14 clamps the height to exactly 0.5,
grounded, with the fall speed zeroed. -/
theorem mushroom_step_up_then_fall_off :
    (sC6onto.gridX = 2 ∧ sC6onto.gridZ = 3 ∧
      isOnMushroom (sC6onto.gridX, sC6onto.gridZ) = true ∧
      sC6onto.playerHeight = 1 / 2) ∧
    (sC6up.playerHeight = 1 ∧ sC6up.isFalling = false ∧
      sC6up.isJumping = false) ∧
    (sC6off.gridX = 2 ∧ sC6off.gridZ = 4 ∧ sC6off.playerHeight = 1) ∧
    ((fallSim 1).isFalling = true) ∧
    (∀ n, n < 14 → 0 < n →
      (fallSim n).isFalling = true ∧ (fallSim n).playerHeight > 1 / 2) ∧
    ((fallSim 14).playerHeight = 1 / 2 ∧ (fallSim 14).isFalling = false ∧
      (fallSim 14).fallSpeed = 0) := by
  refine ⟨?_, ?_, ?_, ?_, ?_, ?_⟩ <;>
    exact of_decide_eq_true (by with_unfolding_all rfl)

/-- Witness for `mushroom_step_up_then_fall_off` mid-fall. -/
theorem mushroom_step_up_witness :
    5 < 14 ∧ 0 < 5 ∧
    ((fallSim 5).isFalling = true ∧ (fallSim 5).playerHeight > 1 / 2) :=
  ⟨by norm_num, by norm_num,
   mushroom_step_up_then_fall_off.2.2.2.2.1 5 (by norm_num) (by norm_num)⟩

end Cody
